import Mathlib

/-!
Shallow embedding of the WebSocket relay core of `src/server.js`
(rtk-openai-realtime-proxy): the `/realtime` upgrade gate, the per-pair
connection handler with its `safeClose` / `safeTerminate` / `closeBoth`
helpers, the bidirectional message relay, the close/error handlers, the
1500 ms grace `setTimeout` scheduled by `closeBoth`, and the 20 s ping
interval.  A Connection Pair is modelled as an explicit state acted on by
the events the Node runtime can deliver to the registered handlers; a run
of a pair is a fold of the handler code over a list of such events.
-/

namespace RealtimeProxy

/-- The four `ws` readiness states (`WebSocket.CONNECTING/OPEN/CLOSING/CLOSED`)
used by the guards in `src/server.js`. -/
inductive ReadyState where
  | CONNECTING
  | OPEN
  | CLOSING
  | CLOSED
deriving DecidableEq

/-- One relayed WebSocket frame: opaque payload bytes plus the `isBinary`
mode flag that the relay passes through as `{ binary: isBinary }`. -/
structure Frame where
  data : List Nat
  binary : Bool
deriving DecidableEq

/-- One leg (one `ws` handle) of a Connection Pair, together with the
observable output produced on it: graceful close frames sent via
`ws.close(code, reason)`, relayed frames sent via `ws.send`, and liveness
probes sent via `ws.ping()`. -/
structure Leg where
  readyState : ReadyState
  closeFrames : List (Nat × String)
  sentFrames : List Frame
  pingsSent : Nat
deriving DecidableEq

/-- `safeClose(ws, code, reason)` (src/server.js:434-436): calls
`ws.close(code, reason)` only when `ws.readyState === WebSocket.OPEN`;
`close` sends a close frame and moves the socket to `CLOSING`. -/
def safeClose (ws : Leg) (code : Nat) (reason : String) : Leg :=
  if ws.readyState = ReadyState.OPEN then
    { ws with readyState := ReadyState.CLOSING,
              closeFrames := ws.closeFrames ++ [(code, reason)] }
  else ws

/-- `safeTerminate(ws)` (src/server.js:437): `ws.terminate()` — abrupt
transport-level termination, no close frame is sent. -/
def safeTerminate (ws : Leg) : Leg :=
  { ws with readyState := ReadyState.CLOSED }

/-- The grace delay passed to `setTimeout` inside `closeBoth`
(src/server.js:479): 1500 milliseconds. -/
def gracePeriodMs : Nat := 1500

/-- The ping interval period (src/server.js:511): 20000 milliseconds. -/
def keepalivePeriodMs : Nat := 20000

/-- State of one Connection Pair after the connection handler has set up
`clientWs` and `openaiWs`: the two legs, the multiset (list) of pending
grace `setTimeout` delays scheduled by `closeBoth`, and whether the
`pingTimer` interval is still installed (`clearInterval` not yet run). -/
structure PairState where
  client : Leg
  upstream : Leg
  graceTimers : List Nat
  pingTimerActive : Bool
deriving DecidableEq

/-- `closeBoth(code, reason)` (src/server.js:473-480): `safeClose` both
legs with the triggering code/reason, then schedule a 1500 ms
`setTimeout` that will `safeTerminate` both legs. -/
def closeBoth (code : Nat) (reason : String) (s : PairState) : PairState :=
  { s with client := safeClose s.client code reason,
           upstream := safeClose s.upstream code reason,
           graceTimers := s.graceTimers ++ [gracePeriodMs] }

/-- The events the Node runtime can deliver to the handlers registered by
the connection handler (src/server.js:450-516).  A `keepaliveTick` carries
one flag per leg saying whether that leg's `ws.ping()` call throws (each
call sits in its own `try { ... } catch {}`).  `graceFire` is the expiry
of one pending `closeBoth` grace `setTimeout`. -/
inductive Event where
  | upstreamUnexpectedResponse (status : Nat)
  | upstreamOpenEvent
  | upstreamMessage (f : Frame)
  | clientMessage (f : Frame)
  | upstreamCloseEvent
  | upstreamErrorEvent
  | clientCloseEvent
  | clientErrorEvent
  | graceFire
  | keepaliveTick (clientPingFails upstreamPingFails : Bool)
deriving DecidableEq

/-- One handler execution, exactly as registered in src/server.js:
  * `unexpected-response` (467-471): `safeClose(clientWs, 1011, ...)` with
    the upstream status embedded in the reason, then `safeTerminate(openaiWs)`;
  * `openaiWs.on("open")` (482): only logs — the socket itself moves
    `CONNECTING → OPEN`;
  * message handlers (483-488): forward the frame verbatim iff the
    destination leg's `readyState === WebSocket.OPEN`, otherwise drop it;
  * close handlers (490-493, 499-502): the socket is `CLOSED` when the
    event fires; `closeBoth(1000, ...)` runs, and so does the `clear`
    handler (513-515) cancelling the ping interval;
  * error handlers (494-497, 503-506): `closeBoth(1011, ...)`;
  * `graceFire`: a pending `setTimeout` from `closeBoth` fires and
    `safeTerminate`s both legs (476-479);
  * `keepaliveTick` (508-511): if the interval is still installed, `ping()`
    each leg whose `readyState === WebSocket.OPEN`, each call wrapped in
    `try {} catch {}` so a throwing ping is swallowed. -/
def step (s : PairState) (e : Event) : PairState :=
  match e with
  | .upstreamUnexpectedResponse status =>
      { s with
          client := safeClose s.client 1011
            ("openai unexpected-response " ++ toString status),
          upstream := safeTerminate s.upstream }
  | .upstreamOpenEvent =>
      if s.upstream.readyState = ReadyState.CONNECTING then
        { s with upstream := { s.upstream with readyState := ReadyState.OPEN } }
      else s
  | .upstreamMessage f =>
      if s.client.readyState = ReadyState.OPEN then
        { s with client := { s.client with sentFrames := s.client.sentFrames ++ [f] } }
      else s
  | .clientMessage f =>
      if s.upstream.readyState = ReadyState.OPEN then
        { s with upstream := { s.upstream with sentFrames := s.upstream.sentFrames ++ [f] } }
      else s
  | .upstreamCloseEvent =>
      let s1 := { s with upstream := { s.upstream with readyState := ReadyState.CLOSED } }
      let s2 := closeBoth 1000 "openai closed" s1
      { s2 with pingTimerActive := false }
  | .upstreamErrorEvent => closeBoth 1011 "openai error" s
  | .clientCloseEvent =>
      let s1 := { s with client := { s.client with readyState := ReadyState.CLOSED } }
      let s2 := closeBoth 1000 "client closed" s1
      { s2 with pingTimerActive := false }
  | .clientErrorEvent => closeBoth 1011 "client error" s
  | .graceFire =>
      match s.graceTimers with
      | [] => s
      | _ :: rest =>
          { s with client := safeTerminate s.client,
                   upstream := safeTerminate s.upstream,
                   graceTimers := rest }
  | .keepaliveTick cfail ufail =>
      if s.pingTimerActive then
        { s with
            client :=
              if s.client.readyState = ReadyState.OPEN ∧ cfail = false then
                { s.client with pingsSent := s.client.pingsSent + 1 }
              else s.client,
            upstream :=
              if s.upstream.readyState = ReadyState.OPEN ∧ ufail = false then
                { s.upstream with pingsSent := s.upstream.pingsSent + 1 }
              else s.upstream }
      else s

/-- A fresh leg in the given readiness state, nothing sent on it yet. -/
def initLeg (rs : ReadyState) : Leg :=
  { readyState := rs, closeFrames := [], sentFrames := [], pingsSent := 0 }

/-- The Connection Pair state right after the connection handler ran with a
non-empty `OPENAI_API_KEY` (src/server.js:450-516): `clientWs` is OPEN
(its handshake completed in `handleUpgrade`), `openaiWs` was just
constructed so it is CONNECTING, no grace timer is pending, and the ping
interval is installed. -/
def initPair : PairState :=
  { client := initLeg ReadyState.OPEN,
    upstream := initLeg ReadyState.CONNECTING,
    graceTimers := [],
    pingTimerActive := true }

/-- Run a Connection Pair over a list of delivered events. -/
def run (s : PairState) (tr : List Event) : PairState := tr.foldl step s

/-- The pair has fully reached `Closed`: both legs are `CLOSED`. -/
def pairClosed (s : PairState) : Bool :=
  s.client.readyState == ReadyState.CLOSED && s.upstream.readyState == ReadyState.CLOSED

/-- Number of steps along a trace at which the pair transitions into the
closed state (`pairClosed` flips from `false` to `true`). -/
def closedTransitions (s : PairState) : List Event → Nat
  | [] => 0
  | e :: tr =>
      (if !pairClosed s && pairClosed (step s e) then 1 else 0) +
        closedTransitions (step s e) tr

/-- Result of `server.on("upgrade")` (src/server.js:439-448) on one
inbound upgrade request: whether the raw socket was destroyed, whether the
WebSocket handshake was completed (`wss.handleUpgrade`), and how many
Connection Pairs were instantiated (`wss.emit("connection", ...)` runs the
connection handler once per accepted upgrade). -/
structure UpgradeResult where
  socketDestroyed : Bool
  handshakeCompleted : Bool
  connectionPairsCreated : Nat
deriving DecidableEq

/-- JS `String.prototype.startsWith(p)`: the first `p.length` characters
of `s` are exactly `p` (kernel-reducible form of `String.startsWith`). -/
def strStartsWith (s p : String) : Bool :=
  s.data.take p.data.length == p.data

/-- `server.on("upgrade")` (src/server.js:439-448): requests whose path
does not start with `/realtime` get `socket.destroy()` and nothing else;
the rest go through `wss.handleUpgrade`, which completes the handshake and
fires the connection handler exactly once. -/
def onUpgrade (url : String) : UpgradeResult :=
  if strStartsWith url "/realtime" then
    { socketDestroyed := false, handshakeCompleted := true, connectionPairsCreated := 1 }
  else
    { socketDestroyed := true, handshakeCompleted := false, connectionPairsCreated := 0 }

/-- The missing-key guard at the top of the connection handler
(src/server.js:454-458).  `OPENAI_API_KEY` is `(env || "").trim()`, so the
JS falsiness test `!OPENAI_API_KEY` is `apiKey = ""`.  Returns the client
leg after the guard together with `true` iff control continues to
`new WebSocket(OPENAI_REALTIME_URL, ...)` (an upstream connection attempt
is made). -/
def connectionKeyGuard (apiKey : String) (clientWs : Leg) : Leg × Bool :=
  if apiKey = "" then
    (safeClose clientWs 1011 "missing OPENAI_API_KEY", false)
  else (clientWs, true)

/-! Basic facts about the primitives. -/

theorem safeClose_of_not_open (ws : Leg) (code : Nat) (reason : String)
    (h : ws.readyState ≠ ReadyState.OPEN) : safeClose ws code reason = ws := by
  simp [safeClose, h]

theorem safeTerminate_of_closed (ws : Leg) (h : ws.readyState = ReadyState.CLOSED) :
    safeTerminate ws = ws := by
  cases ws
  simp_all [safeTerminate]

theorem safeClose_closeFrames (ws : Leg) (code : Nat) (reason : String) :
    (safeClose ws code reason).closeFrames =
      ws.closeFrames ++
        (if ws.readyState = ReadyState.OPEN then [(code, reason)] else []) := by
  by_cases h : ws.readyState = ReadyState.OPEN <;> simp [safeClose, h]

/-! Once a leg is CLOSED it stays CLOSED: no handler reopens a socket. -/

theorem step_client_closed (s : PairState) (e : Event)
    (h : s.client.readyState = ReadyState.CLOSED) :
    (step s e).client.readyState = ReadyState.CLOSED := by
  have hno : s.client.readyState ≠ ReadyState.OPEN := by simp [h]
  cases e <;>
    simp [step, closeBoth, safeClose, safeTerminate, hno, h] <;>
    split <;> simp_all

theorem step_upstream_closed (s : PairState) (e : Event)
    (h : s.upstream.readyState = ReadyState.CLOSED) :
    (step s e).upstream.readyState = ReadyState.CLOSED := by
  have hno : s.upstream.readyState ≠ ReadyState.OPEN := by simp [h]
  cases e <;>
    simp [step, closeBoth, safeClose, safeTerminate, hno, h] <;>
    split <;> simp_all

theorem run_client_closed (s : PairState) (tr : List Event)
    (h : s.client.readyState = ReadyState.CLOSED) :
    (run s tr).client.readyState = ReadyState.CLOSED := by
  induction tr generalizing s with
  | nil => exact h
  | cons e tr ih => exact ih (step s e) (step_client_closed s e h)

theorem run_upstream_closed (s : PairState) (tr : List Event)
    (h : s.upstream.readyState = ReadyState.CLOSED) :
    (run s tr).upstream.readyState = ReadyState.CLOSED := by
  induction tr generalizing s with
  | nil => exact h
  | cons e tr ih => exact ih (step s e) (step_upstream_closed s e h)

theorem pairClosed_eq_true_iff (s : PairState) :
    pairClosed s = true ↔
      s.client.readyState = ReadyState.CLOSED ∧
        s.upstream.readyState = ReadyState.CLOSED := by
  simp [pairClosed]

theorem pairClosed_step (s : PairState) (e : Event) (h : pairClosed s = true) :
    pairClosed (step s e) = true := by
  rw [pairClosed_eq_true_iff] at h ⊢
  exact ⟨step_client_closed s e h.1, step_upstream_closed s e h.2⟩

theorem pairClosed_run (s : PairState) (tr : List Event) (h : pairClosed s = true) :
    pairClosed (run s tr) = true := by
  rw [pairClosed_eq_true_iff] at h ⊢
  exact ⟨run_client_closed s tr h.1, run_upstream_closed s tr h.2⟩

/-! Counting the transitions into the closed state. -/

theorem closedTransitions_of_closed (s : PairState) (tr : List Event)
    (h : pairClosed s = true) : closedTransitions s tr = 0 := by
  induction tr generalizing s with
  | nil => rfl
  | cons e tr ih =>
      simp [closedTransitions, h, ih (step s e) (pairClosed_step s e h)]

theorem closedTransitions_le_one (s : PairState) (tr : List Event) :
    closedTransitions s tr ≤ 1 := by
  induction tr generalizing s with
  | nil => simp [closedTransitions]
  | cons e tr ih =>
      by_cases h2 : pairClosed (step s e) = true
      · by_cases h1 : pairClosed s = true
        · simp [closedTransitions, h1, closedTransitions_of_closed _ _ (pairClosed_step s e h1)]
        · simp only [closedTransitions]
          rw [closedTransitions_of_closed _ _ h2]
          simp [h1, h2]
      · simp only [closedTransitions]
        have : (!pairClosed s && pairClosed (step s e)) = false := by
          simp [h2]
        simp [this, ih (step s e)]

theorem not_closed_of_closedTransitions_zero (s : PairState) (tr : List Event)
    (h0 : pairClosed s = false) (hz : closedTransitions s tr = 0) :
    pairClosed (run s tr) = false := by
  induction tr generalizing s with
  | nil => exact h0
  | cons e tr ih =>
      simp only [closedTransitions, Nat.add_eq_zero] at hz
      obtain ⟨hz1, hz2⟩ := hz
      have h1 : pairClosed (step s e) = false := by
        by_contra hc
        have hc' : pairClosed (step s e) = true := by
          cases hcc : pairClosed (step s e) <;> simp_all
        simp [h0, hc'] at hz1
      exact ih (step s e) h1 hz2

/-! The close-attempt invariant: a leg that is still CONNECTING or OPEN has
never had a close frame sent on it, and no leg ever accumulates more than
one close frame — `ws.close` is only reachable through `safeClose`, whose
OPEN guard can succeed at most once because `close` leaves OPEN forever. -/

def legCloseInv (l : Leg) : Prop :=
  ((l.readyState = ReadyState.CONNECTING ∨ l.readyState = ReadyState.OPEN) →
      l.closeFrames = []) ∧
  l.closeFrames.length ≤ 1

def pairCloseInv (s : PairState) : Prop :=
  legCloseInv s.client ∧ legCloseInv s.upstream

theorem legCloseInv_initLeg (rs : ReadyState) : legCloseInv (initLeg rs) := by
  constructor <;> simp [initLeg]

theorem legCloseInv_safeClose (l : Leg) (code : Nat) (reason : String)
    (h : legCloseInv l) : legCloseInv (safeClose l code reason) := by
  by_cases ho : l.readyState = ReadyState.OPEN
  · have hfr : l.closeFrames = [] := h.1 (Or.inr ho)
    constructor
    · intro hc
      simp [safeClose, ho] at hc
    · simp [safeClose, ho, hfr]
  · simpa [safeClose, ho] using h

theorem legCloseInv_safeTerminate (l : Leg) (h : legCloseInv l) :
    legCloseInv (safeTerminate l) := by
  constructor
  · intro hc
    simp [safeTerminate] at hc
  · simpa [safeTerminate] using h.2

theorem legCloseInv_setClosed (l : Leg) (h : legCloseInv l) :
    legCloseInv { l with readyState := ReadyState.CLOSED } := by
  constructor
  · intro hc
    simp at hc
  · simpa using h.2

theorem legCloseInv_setOpen (l : Leg) (h : legCloseInv l)
    (hc : l.readyState = ReadyState.CONNECTING) :
    legCloseInv { l with readyState := ReadyState.OPEN } := by
  have hfr : l.closeFrames = [] := h.1 (Or.inl hc)
  constructor
  · intro _
    simpa using hfr
  · simpa using h.2

theorem legCloseInv_addFrame (l : Leg) (f : Frame) (h : legCloseInv l) :
    legCloseInv { l with sentFrames := l.sentFrames ++ [f] } := by
  constructor
  · intro hc
    exact h.1 (by simpa using hc)
  · simpa using h.2

theorem legCloseInv_ping (l : Leg) (h : legCloseInv l) :
    legCloseInv { l with pingsSent := l.pingsSent + 1 } := by
  constructor
  · intro hc
    exact h.1 (by simpa using hc)
  · simpa using h.2

theorem legCloseInv_pingIf (l : Leg) (c : Prop) [Decidable c] (h : legCloseInv l) :
    legCloseInv (if c then { l with pingsSent := l.pingsSent + 1 } else l) := by
  split
  · exact legCloseInv_ping _ h
  · exact h

theorem pairCloseInv_step (s : PairState) (e : Event) (h : pairCloseInv s) :
    pairCloseInv (step s e) := by
  obtain ⟨hc, hu⟩ := h
  cases e with
  | upstreamUnexpectedResponse status =>
      exact ⟨legCloseInv_safeClose _ _ _ hc, legCloseInv_safeTerminate _ hu⟩
  | upstreamOpenEvent =>
      simp only [step, pairCloseInv]
      split
      · rename_i hcn
        exact ⟨hc, legCloseInv_setOpen _ hu hcn⟩
      · exact ⟨hc, hu⟩
  | upstreamMessage f =>
      simp only [step, pairCloseInv]
      split
      · exact ⟨legCloseInv_addFrame _ f hc, hu⟩
      · exact ⟨hc, hu⟩
  | clientMessage f =>
      simp only [step, pairCloseInv]
      split
      · exact ⟨hc, legCloseInv_addFrame _ f hu⟩
      · exact ⟨hc, hu⟩
  | upstreamCloseEvent =>
      exact ⟨legCloseInv_safeClose _ _ _ hc,
        legCloseInv_safeClose _ _ _ (legCloseInv_setClosed _ hu)⟩
  | upstreamErrorEvent =>
      exact ⟨legCloseInv_safeClose _ _ _ hc, legCloseInv_safeClose _ _ _ hu⟩
  | clientCloseEvent =>
      exact ⟨legCloseInv_safeClose _ _ _ (legCloseInv_setClosed _ hc),
        legCloseInv_safeClose _ _ _ hu⟩
  | clientErrorEvent =>
      exact ⟨legCloseInv_safeClose _ _ _ hc, legCloseInv_safeClose _ _ _ hu⟩
  | graceFire =>
      simp only [step, pairCloseInv]
      cases hgt : s.graceTimers with
      | nil => exact ⟨hc, hu⟩
      | cons d rest =>
          exact ⟨legCloseInv_safeTerminate _ hc, legCloseInv_safeTerminate _ hu⟩
  | keepaliveTick cf uf =>
      simp only [step, pairCloseInv]
      split
      · exact ⟨legCloseInv_pingIf _ _ hc, legCloseInv_pingIf _ _ hu⟩
      · exact ⟨hc, hu⟩

theorem pairCloseInv_run (s : PairState) (tr : List Event) (h : pairCloseInv s) :
    pairCloseInv (run s tr) := by
  induction tr generalizing s with
  | nil => exact h
  | cons e tr ih => exact ih (step s e) (pairCloseInv_step s e h)

theorem pairCloseInv_initPair : pairCloseInv initPair :=
  ⟨legCloseInv_initLeg _, legCloseInv_initLeg _⟩

/-! Once `clearInterval(pingTimer)` has run, no handler re-installs it. -/

theorem step_pingInactive (s : PairState) (e : Event)
    (h : s.pingTimerActive = false) : (step s e).pingTimerActive = false := by
  cases e <;>
    simp [step, closeBoth, h] <;>
    split <;> simp_all

theorem run_pingInactive (s : PairState) (tr : List Event)
    (h : s.pingTimerActive = false) : (run s tr).pingTimerActive = false := by
  induction tr generalizing s with
  | nil => exact h
  | cons e tr ih => exact ih (step s e) (step_pingInactive s e h)

/-! An upstream leg that is not OPEN never has a close frame sent on it, and
only the `open` event can make it OPEN. -/

theorem step_upstream_unopened (s : PairState) (e : Event)
    (he : e ≠ Event.upstreamOpenEvent)
    (h : s.upstream.readyState ≠ ReadyState.OPEN) :
    (step s e).upstream.readyState ≠ ReadyState.OPEN ∧
      (step s e).upstream.closeFrames = s.upstream.closeFrames := by
  cases e <;>
    simp [step, closeBoth, safeClose, safeTerminate, h] <;>
    first
    | exact absurd rfl he
    | (constructor <;> split <;> simp_all)

theorem run_upstream_unopened (s : PairState) (tr : List Event)
    (he : ∀ e ∈ tr, e ≠ Event.upstreamOpenEvent)
    (h : s.upstream.readyState ≠ ReadyState.OPEN) :
    (run s tr).upstream.readyState ≠ ReadyState.OPEN ∧
      (run s tr).upstream.closeFrames = s.upstream.closeFrames := by
  induction tr generalizing s with
  | nil => exact ⟨h, rfl⟩
  | cons e tr ih =>
      have h1 := step_upstream_unopened s e (he e (List.mem_cons_self e tr)) h
      have h2 := ih (step s e) (fun x hx => he x (List.mem_cons_of_mem e hx)) h1.1
      exact ⟨h2.1, h2.2.trans h1.2⟩

/-! Firing a pending grace timer terminates both legs abruptly. -/

theorem graceFire_closes (s : PairState) (h : s.graceTimers ≠ []) :
    (step s Event.graceFire).client.readyState = ReadyState.CLOSED ∧
      (step s Event.graceFire).upstream.readyState = ReadyState.CLOSED ∧
      (step s Event.graceFire).client.closeFrames = s.client.closeFrames ∧
      (step s Event.graceFire).upstream.closeFrames = s.upstream.closeFrames := by
  cases hgt : s.graceTimers with
  | nil => exact absurd hgt h
  | cons d rest => simp [step, hgt, safeTerminate]

theorem graceFire_closeFrames (s : PairState) :
    (step s Event.graceFire).client.closeFrames = s.client.closeFrames ∧
      (step s Event.graceFire).upstream.closeFrames = s.upstream.closeFrames := by
  cases hgt : s.graceTimers with
  | nil => simp [step, hgt]
  | cons d rest => simp [step, hgt, safeTerminate]

theorem run_append (s : PairState) (t1 t2 : List Event) :
    run s (t1 ++ t2) = run (run s t1) t2 := by
  simp [run, List.foldl_append]

/-! Relaying a batch of frames while the destination leg stays OPEN. -/

theorem run_clientMessages (s : PairState) (msgs : List Frame)
    (h : s.upstream.readyState = ReadyState.OPEN) :
    (run s (msgs.map Event.clientMessage)).upstream.sentFrames =
      s.upstream.sentFrames ++ msgs := by
  induction msgs generalizing s with
  | nil => simp [run]
  | cons f rest ih =>
      have hstep : step s (Event.clientMessage f) =
          { s with upstream := { s.upstream with sentFrames := s.upstream.sentFrames ++ [f] } } := by
        simp [step, h]
      have hopen : (step s (Event.clientMessage f)).upstream.readyState = ReadyState.OPEN := by
        rw [hstep]
        exact h
      calc (run s ((f :: rest).map Event.clientMessage)).upstream.sentFrames
          = (run (step s (Event.clientMessage f)) (rest.map Event.clientMessage)).upstream.sentFrames := rfl
        _ = (step s (Event.clientMessage f)).upstream.sentFrames ++ rest := ih _ hopen
        _ = s.upstream.sentFrames ++ (f :: rest) := by rw [hstep]; simp

theorem run_upstreamMessages (s : PairState) (msgs : List Frame)
    (h : s.client.readyState = ReadyState.OPEN) :
    (run s (msgs.map Event.upstreamMessage)).client.sentFrames =
      s.client.sentFrames ++ msgs := by
  induction msgs generalizing s with
  | nil => simp [run]
  | cons f rest ih =>
      have hstep : step s (Event.upstreamMessage f) =
          { s with client := { s.client with sentFrames := s.client.sentFrames ++ [f] } } := by
        simp [step, h]
      have hopen : (step s (Event.upstreamMessage f)).client.readyState = ReadyState.OPEN := by
        rw [hstep]
        exact h
      calc (run s ((f :: rest).map Event.upstreamMessage)).client.sentFrames
          = (run (step s (Event.upstreamMessage f)) (rest.map Event.upstreamMessage)).client.sentFrames := rfl
        _ = (step s (Event.upstreamMessage f)).client.sentFrames ++ rest := ih _ hopen
        _ = s.client.sentFrames ++ (f :: rest) := by rw [hstep]; simp

/-! Grace timers are only ever consumed by their own expiry. -/

theorem step_graceTimers_mono (s : PairState) (e : Event)
    (he : e ≠ Event.graceFire) :
    s.graceTimers.length ≤ (step s e).graceTimers.length := by
  cases e <;>
    simp [step, closeBoth] <;>
    first
    | exact absurd rfl he
    | (split <;> simp_all)

/-- C1: whatever terminal events trigger `closeBoth` and in whatever order
(N ≥ 1 triggers: client close, client error, upstream close, upstream
error), at most one graceful-close attempt is made per leg — `safeClose`
closes only an OPEN leg and `close` leaves OPEN for good — and the pair
transitions into `Closed` at most once along any trace, exactly once along
any trace at whose end the pair is closed; a later trigger re-closes
idempotently. -/
theorem teardown_trigger_idempotent (tr : List Event) :
    (run initPair tr).client.closeFrames.length ≤ 1 ∧
    (run initPair tr).upstream.closeFrames.length ≤ 1 ∧
    closedTransitions initPair tr ≤ 1 ∧
    (pairClosed (run initPair tr) = true → closedTransitions initPair tr = 1) := by
  have hinv := pairCloseInv_run initPair tr pairCloseInv_initPair
  refine ⟨hinv.1.2, hinv.2.2, closedTransitions_le_one _ _, ?_⟩
  intro hcl
  have h0 : pairClosed initPair = false := by decide
  by_contra hne
  have hz : closedTransitions initPair tr = 0 := by
    have hle := closedTransitions_le_one initPair tr
    omega
  have hf := not_closed_of_closedTransitions_zero initPair tr h0 hz
  rw [hf] at hcl
  exact Bool.noConfusion hcl

/-- C1 witness: one trigger followed by the grace-timer expiry closes the
pair with exactly one transition into `Closed`. -/
theorem teardown_trigger_idempotent_witness :
    closedTransitions initPair [Event.clientErrorEvent, Event.graceFire] = 1 ∧
    (run initPair [Event.clientErrorEvent, Event.graceFire]).client.closeFrames.length ≤ 1 :=
  ⟨(teardown_trigger_idempotent [Event.clientErrorEvent, Event.graceFire]).2.2.2 (by decide),
   (teardown_trigger_idempotent [Event.clientErrorEvent, Event.graceFire]).1⟩

/-- C2: a frame received on one leg is sent on the other leg verbatim
(payload and binary flag intact, appended in receipt order) when that
destination leg is OPEN at the time of the send; otherwise the whole pair
state is left untouched — the frame is dropped with no queueing, no retry
and no recorded error.  A batch of same-direction frames received while
the destination leg is OPEN arrives in receipt order. -/
theorem frame_relay_verbatim_or_drop (s : PairState) (f : Frame) (msgs : List Frame) :
    (s.upstream.readyState = ReadyState.OPEN →
      (step s (Event.clientMessage f)).upstream.sentFrames =
        s.upstream.sentFrames ++ [f]) ∧
    (s.upstream.readyState ≠ ReadyState.OPEN → step s (Event.clientMessage f) = s) ∧
    (s.client.readyState = ReadyState.OPEN →
      (step s (Event.upstreamMessage f)).client.sentFrames =
        s.client.sentFrames ++ [f]) ∧
    (s.client.readyState ≠ ReadyState.OPEN → step s (Event.upstreamMessage f) = s) ∧
    (s.upstream.readyState = ReadyState.OPEN →
      (run s (msgs.map Event.clientMessage)).upstream.sentFrames =
        s.upstream.sentFrames ++ msgs) ∧
    (s.client.readyState = ReadyState.OPEN →
      (run s (msgs.map Event.upstreamMessage)).client.sentFrames =
        s.client.sentFrames ++ msgs) := by
  refine ⟨?_, ?_, ?_, ?_,
    fun h => run_clientMessages s msgs h, fun h => run_upstreamMessages s msgs h⟩
  · intro h
    simp [step, h]
  · intro h
    simp [step, h]
  · intro h
    simp [step, h]
  · intro h
    simp [step, h]

/-- C2 witness: on the fresh pair the upstream leg is still CONNECTING, so a
client frame is dropped without any state change, while an upstream frame
reaches the OPEN client leg verbatim and a batch arrives in order. -/
theorem frame_relay_verbatim_or_drop_witness :
    step initPair (Event.clientMessage ⟨[1, 2, 3], true⟩) = initPair ∧
    (run initPair ([⟨[7], false⟩, ⟨[8, 9], true⟩].map Event.upstreamMessage)).client.sentFrames =
      initPair.client.sentFrames ++ [⟨[7], false⟩, ⟨[8, 9], true⟩] :=
  ⟨(frame_relay_verbatim_or_drop initPair ⟨[1, 2, 3], true⟩ []).2.1 (by decide),
   (frame_relay_verbatim_or_drop initPair ⟨[1, 2, 3], true⟩
      [⟨[7], false⟩, ⟨[8, 9], true⟩]).2.2.2.2.2 (by decide)⟩

/-- C3: an upgrade request whose path does not start with `/realtime` has
its socket destroyed with no WebSocket handshake and no Connection Pair;
a request whose path does start with `/realtime` completes the handshake
and instantiates exactly one Connection Pair. -/
theorem upgrade_gate (url : String) :
    (strStartsWith url "/realtime" = false →
      onUpgrade url = { socketDestroyed := true, handshakeCompleted := false,
                        connectionPairsCreated := 0 }) ∧
    (strStartsWith url "/realtime" = true →
      onUpgrade url = { socketDestroyed := false, handshakeCompleted := true,
                        connectionPairsCreated := 1 }) := by
  constructor <;> intro h <;> simp [onUpgrade, h]

/-- C3 witness: `/health` is destroyed without a handshake or a pair,
`/realtime` yields exactly one pair. -/
theorem upgrade_gate_witness :
    onUpgrade "/health" = { socketDestroyed := true, handshakeCompleted := false,
                            connectionPairsCreated := 0 } ∧
    onUpgrade "/realtime" = { socketDestroyed := false, handshakeCompleted := true,
                              connectionPairsCreated := 1 } :=
  ⟨(upgrade_gate "/health").1 (by decide), (upgrade_gate "/realtime").2 (by decide)⟩

/-- C4: with the bearer credential absent (empty after trim), the connection
handler makes no upstream connection attempt and closes the OPEN client leg
with code 1011 and the reason naming the missing credential; with any
non-empty credential the guard passes the client leg through untouched and
the upstream attempt is made. -/
theorem missing_key_guard (clientWs : Leg)
    (h : clientWs.readyState = ReadyState.OPEN) :
    (connectionKeyGuard "" clientWs).2 = false ∧
    (connectionKeyGuard "" clientWs).1.closeFrames =
      clientWs.closeFrames ++ [(1011, "missing OPENAI_API_KEY")] ∧
    (connectionKeyGuard "" clientWs).1.readyState = ReadyState.CLOSING ∧
    ∀ k : String, k ≠ "" → connectionKeyGuard k clientWs = (clientWs, true) := by
  refine ⟨by simp [connectionKeyGuard], ?_, ?_, ?_⟩
  · simp [connectionKeyGuard, safeClose, h]
  · simp [connectionKeyGuard, safeClose, h]
  · intro k hk
    simp [connectionKeyGuard, hk]

/-- C4 witness: the guard at a concrete fresh OPEN client leg. -/
theorem missing_key_guard_witness :
    (connectionKeyGuard "" (initLeg ReadyState.OPEN)).2 = false ∧
    (connectionKeyGuard "" (initLeg ReadyState.OPEN)).1.closeFrames =
      (initLeg ReadyState.OPEN).closeFrames ++ [(1011, "missing OPENAI_API_KEY")] ∧
    connectionKeyGuard "sk-test" (initLeg ReadyState.OPEN) =
      (initLeg ReadyState.OPEN, true) := by
  have h := missing_key_guard (initLeg ReadyState.OPEN) rfl
  exact ⟨h.1, h.2.1, h.2.2.2 "sk-test" (by decide)⟩

/-- C5: on `unexpected-response` (upstream handshake rejected with a plain
HTTP response), the OPEN client leg is closed with code 1011 and a reason
embedding the upstream status, while the upstream transport is terminated
abruptly — its readiness state becomes CLOSED with no graceful close frame
ever sent on it. -/
theorem unexpected_response_fatal (s : PairState) (status : Nat)
    (h : s.client.readyState = ReadyState.OPEN) :
    (step s (Event.upstreamUnexpectedResponse status)).client.closeFrames =
      s.client.closeFrames ++
        [(1011, "openai unexpected-response " ++ toString status)] ∧
    (step s (Event.upstreamUnexpectedResponse status)).client.readyState =
      ReadyState.CLOSING ∧
    (step s (Event.upstreamUnexpectedResponse status)).upstream.readyState =
      ReadyState.CLOSED ∧
    (step s (Event.upstreamUnexpectedResponse status)).upstream.closeFrames =
      s.upstream.closeFrames := by
  refine ⟨?_, ?_, ?_, ?_⟩ <;> simp [step, safeClose, safeTerminate, h]

/-- C5 witness: an upstream 401 closes the client with code 1011 and a
reason containing "401", and terminates the upstream leg. -/
theorem unexpected_response_fatal_witness :
    (step initPair (Event.upstreamUnexpectedResponse 401)).client.closeFrames =
      [(1011, "openai unexpected-response 401")] ∧
    (step initPair (Event.upstreamUnexpectedResponse 401)).upstream.readyState =
      ReadyState.CLOSED := by
  have h := unexpected_response_fatal initPair 401 rfl
  exact ⟨h.1.trans (by decide), h.2.2.1⟩

/-- C6: the code and reason passed outward by a teardown trigger come from
its cause: a close event on either leg closes the other (still OPEN) leg
with code 1000, an error event on either leg closes the legs still OPEN
with code 1011. -/
theorem teardown_close_codes (s : PairState) :
    (step s Event.upstreamCloseEvent).client.closeFrames =
      s.client.closeFrames ++
        (if s.client.readyState = ReadyState.OPEN then [(1000, "openai closed")] else []) ∧
    (step s Event.clientCloseEvent).upstream.closeFrames =
      s.upstream.closeFrames ++
        (if s.upstream.readyState = ReadyState.OPEN then [(1000, "client closed")] else []) ∧
    (step s Event.upstreamErrorEvent).client.closeFrames =
      s.client.closeFrames ++
        (if s.client.readyState = ReadyState.OPEN then [(1011, "openai error")] else []) ∧
    (step s Event.upstreamErrorEvent).upstream.closeFrames =
      s.upstream.closeFrames ++
        (if s.upstream.readyState = ReadyState.OPEN then [(1011, "openai error")] else []) ∧
    (step s Event.clientErrorEvent).client.closeFrames =
      s.client.closeFrames ++
        (if s.client.readyState = ReadyState.OPEN then [(1011, "client error")] else []) ∧
    (step s Event.clientErrorEvent).upstream.closeFrames =
      s.upstream.closeFrames ++
        (if s.upstream.readyState = ReadyState.OPEN then [(1011, "client error")] else []) := by
  refine ⟨?_, ?_, ?_, ?_, ?_, ?_⟩ <;>
    simp [step, closeBoth, safeClose_closeFrames]

/-- C7: whatever the ordering of triggering events, once a teardown trigger
has scheduled its grace timer, the expiry of a pending grace timer leaves
both legs CLOSED — abruptly, adding no close frame — and they stay CLOSED
for the rest of the trace; each trigger schedules the timer with the
configured 1500 ms grace delay. -/
theorem grace_period_reaches_closed (t1 t2 : List Event) (s : PairState)
    (h : (run initPair t1).graceTimers ≠ []) :
    ((run initPair (t1 ++ Event.graceFire :: t2)).client.readyState =
        ReadyState.CLOSED ∧
      (run initPair (t1 ++ Event.graceFire :: t2)).upstream.readyState =
        ReadyState.CLOSED) ∧
    (step s Event.graceFire).client.closeFrames = s.client.closeFrames ∧
    (step s Event.graceFire).upstream.closeFrames = s.upstream.closeFrames ∧
    (step s Event.clientCloseEvent).graceTimers = s.graceTimers ++ [gracePeriodMs] ∧
    (step s Event.clientErrorEvent).graceTimers = s.graceTimers ++ [gracePeriodMs] ∧
    (step s Event.upstreamCloseEvent).graceTimers = s.graceTimers ++ [gracePeriodMs] ∧
    (step s Event.upstreamErrorEvent).graceTimers = s.graceTimers ++ [gracePeriodMs] ∧
    gracePeriodMs = 1500 := by
  have hmid := graceFire_closes (run initPair t1) h
  have hrun : run initPair (t1 ++ Event.graceFire :: t2) =
      run (step (run initPair t1) Event.graceFire) t2 := by
    rw [run_append]
    rfl
  refine ⟨⟨?_, ?_⟩, (graceFire_closeFrames s).1, (graceFire_closeFrames s).2,
    ?_, ?_, ?_, ?_, rfl⟩
  · rw [hrun]
    exact run_client_closed _ t2 hmid.1
  · rw [hrun]
    exact run_upstream_closed _ t2 hmid.2.1
  all_goals simp [step, closeBoth]

/-- C7 witness: client error then grace expiry closes both legs. -/
theorem grace_period_reaches_closed_witness :
    (run initPair [Event.clientErrorEvent, Event.graceFire]).client.readyState =
      ReadyState.CLOSED ∧
    (run initPair [Event.clientErrorEvent, Event.graceFire]).upstream.readyState =
      ReadyState.CLOSED :=
  (grace_period_reaches_closed [Event.clientErrorEvent] [] initPair (by decide)).1

/-- C8: a keepalive tick sends a ping on each leg whose readiness state is
OPEN while the interval is installed, and on no other leg; a throwing ping
on one leg is swallowed and does not affect the other leg; a tick changes
nothing else; the interval is cleared by either leg's close event, after
which a tick does nothing at all. -/
theorem keepalive_policy (s : PairState) (cf uf : Bool) :
    (step s (Event.keepaliveTick cf uf)).client.pingsSent =
      s.client.pingsSent +
        (if s.pingTimerActive = true ∧ s.client.readyState = ReadyState.OPEN ∧ cf = false
         then 1 else 0) ∧
    (step s (Event.keepaliveTick cf uf)).upstream.pingsSent =
      s.upstream.pingsSent +
        (if s.pingTimerActive = true ∧ s.upstream.readyState = ReadyState.OPEN ∧ uf = false
         then 1 else 0) ∧
    (step s (Event.keepaliveTick true uf)).upstream =
      (step s (Event.keepaliveTick false uf)).upstream ∧
    (step s (Event.keepaliveTick cf true)).client =
      (step s (Event.keepaliveTick cf false)).client ∧
    (step s (Event.keepaliveTick cf uf)).client.readyState = s.client.readyState ∧
    (step s (Event.keepaliveTick cf uf)).client.closeFrames = s.client.closeFrames ∧
    (step s (Event.keepaliveTick cf uf)).upstream.readyState = s.upstream.readyState ∧
    (step s (Event.keepaliveTick cf uf)).upstream.closeFrames = s.upstream.closeFrames ∧
    (step s Event.clientCloseEvent).pingTimerActive = false ∧
    (step s Event.upstreamCloseEvent).pingTimerActive = false ∧
    (s.pingTimerActive = false → step s (Event.keepaliveTick cf uf) = s) := by
  by_cases ha : s.pingTimerActive = true
  · refine ⟨?_, ?_, ?_, ?_, ?_, ?_, ?_, ?_,
      by simp [step, closeBoth], by simp [step, closeBoth], ?_⟩
    · by_cases hof : s.client.readyState = ReadyState.OPEN ∧ cf = false <;>
        simp [step, ha, hof]
    · by_cases hof : s.upstream.readyState = ReadyState.OPEN ∧ uf = false <;>
        simp [step, ha, hof]
    · simp [step, ha]
    · simp [step, ha]
    · simp [step, ha]
      split <;> simp
    · simp [step, ha]
      split <;> simp
    · simp [step, ha]
      split <;> simp
    · simp [step, ha]
      split <;> simp
    · intro hfalse
      rw [hfalse] at ha
      exact Bool.noConfusion ha
  · have ha' : s.pingTimerActive = false := by
      cases hb : s.pingTimerActive
      · rfl
      · exact absurd hb ha
    refine ⟨by simp [step, ha', ha], by simp [step, ha', ha],
      by simp [step, ha'], by simp [step, ha'],
      by simp [step, ha'], by simp [step, ha'],
      by simp [step, ha'], by simp [step, ha'],
      by simp [step, closeBoth], by simp [step, closeBoth],
      fun _ => by simp [step, ha']⟩

/-- C8 witness: a tick on the fresh pair pings exactly the OPEN client leg,
and after the client close event a tick is a no-op. -/
theorem keepalive_policy_witness :
    (step initPair (Event.keepaliveTick false false)).client.pingsSent =
      initPair.client.pingsSent + 1 ∧
    step (run initPair [Event.clientCloseEvent]) (Event.keepaliveTick false false) =
      run initPair [Event.clientCloseEvent] := by
  obtain ⟨a1, -, -, -, -, -, -, -, -, -, -⟩ := keepalive_policy initPair false false
  obtain ⟨-, -, -, -, -, -, -, -, -, -, b11⟩ :=
    keepalive_policy (run initPair [Event.clientCloseEvent]) false false
  exact ⟨a1.trans (by decide), b11 (by decide)⟩

/-- C9 counterexample: a pair whose legs have both reached CLOSED (upstream
opened, then both close events arrived) still has two pending grace
`setTimeout` timers — `closeBoth` never clears them, they are consumed
only by firing — so the stated cancellation of the grace-period timer on
every exit path is false on the code. -/
theorem grace_timer_pending_after_closed :
    pairClosed (run initPair
      [Event.upstreamOpenEvent, Event.clientCloseEvent, Event.upstreamCloseEvent]) = true ∧
    (run initPair
      [Event.upstreamOpenEvent, Event.clientCloseEvent, Event.upstreamCloseEvent]).pingTimerActive
        = false ∧
    (run initPair
      [Event.upstreamOpenEvent, Event.clientCloseEvent, Event.upstreamCloseEvent]).graceTimers
        = [1500, 1500] := by
  decide

/-- C9 amended: the keepalive interval is cancelled by either leg's close
event (which every exit path eventually produces) and stays cancelled; the
grace-period timer, by contrast, is never cancelled — no event shrinks the
pending-timer list except a timer's own expiry — and once the pair is
fully CLOSED a firing grace timer only consumes itself, changing nothing
else. -/
theorem timer_discipline_amended (s : PairState) (tr : List Event) (e : Event) :
    (step s Event.clientCloseEvent).pingTimerActive = false ∧
    (step s Event.upstreamCloseEvent).pingTimerActive = false ∧
    (s.pingTimerActive = false → (run s tr).pingTimerActive = false) ∧
    (e ≠ Event.graceFire → s.graceTimers.length ≤ (step s e).graceTimers.length) ∧
    (pairClosed s = true →
      step s Event.graceFire = { s with graceTimers := s.graceTimers.tail }) := by
  refine ⟨by simp [step, closeBoth], by simp [step, closeBoth],
    fun h => run_pingInactive s tr h, fun h => step_graceTimers_mono s e h, ?_⟩
  intro h
  rw [pairClosed_eq_true_iff] at h
  cases hgt : s.graceTimers with
  | nil =>
      have hs : step s Event.graceFire = s := by simp [step, hgt]
      rw [hs]
      cases s with
      | mk c u g p => simp_all
  | cons d rest =>
      have hc := safeTerminate_of_closed s.client h.1
      have hu := safeTerminate_of_closed s.upstream h.2
      simp [step, hgt, hc, hu]

/-- C9 amended witness: after both close events the interval stays cleared
through a further tick, and a grace expiry on the closed pair only pops
its own pending timer. -/
theorem timer_discipline_amended_witness :
    (run (run initPair [Event.clientCloseEvent, Event.upstreamCloseEvent])
        [Event.keepaliveTick false false]).pingTimerActive = false ∧
    step (run initPair [Event.clientCloseEvent, Event.upstreamCloseEvent])
        Event.graceFire =
      { run initPair [Event.clientCloseEvent, Event.upstreamCloseEvent] with
          graceTimers :=
            (run initPair [Event.clientCloseEvent, Event.upstreamCloseEvent]).graceTimers.tail } := by
  have h := timer_discipline_amended
    (run initPair [Event.clientCloseEvent, Event.upstreamCloseEvent])
    [Event.keepaliveTick false false] Event.clientErrorEvent
  exact ⟨h.2.2.1 (by decide), h.2.2.2.2 (by decide)⟩

/-- C10 counterexample: the client errors while the upstream leg is still
CONNECTING (a teardown trigger fires, schedules its grace timer, and sends
no close frame on the upstream leg); the upstream handshake then completes
and the client close event — the normal follow-up of the trigger — runs
`closeBoth` again, which `safeClose`s the now-OPEN upstream leg.  A close
frame IS sent on the upstream leg before any grace timer fires, refuting
"no close frame is ever sent". -/
theorem connecting_close_frame_cex :
    (run initPair [Event.clientErrorEvent]).upstream.readyState =
      ReadyState.CONNECTING ∧
    (run initPair [Event.clientErrorEvent]).graceTimers ≠ [] ∧
    (run initPair [Event.clientErrorEvent]).upstream.closeFrames = [] ∧
    (run initPair
      [Event.clientErrorEvent, Event.upstreamOpenEvent, Event.clientCloseEvent]).upstream.closeFrames =
        [(1000, "client closed")] := by
  decide

/-- C10 amended: graceful close is attempted only on a leg whose readiness
state is exactly OPEN, so a teardown trigger firing while the upstream leg
is CONNECTING sends no close frame on it; as long as the upstream leg
never receives its `open` event it stays untouched until a grace timer
force-terminates it abruptly — but if the upstream leg opens after the
trigger, a later trigger can still send a close frame on it. -/
theorem connecting_leg_no_graceful_close (s : PairState) (ws : Leg) (code : Nat)
    (reason : String) (tr : List Event) :
    (ws.readyState ≠ ReadyState.OPEN → safeClose ws code reason = ws) ∧
    (s.upstream.readyState = ReadyState.CONNECTING →
      ∀ e : Event, e ≠ Event.upstreamOpenEvent →
        (step s e).upstream.closeFrames = s.upstream.closeFrames) ∧
    (s.upstream.readyState = ReadyState.CONNECTING →
      (∀ e ∈ tr, e ≠ Event.upstreamOpenEvent) →
      (run s tr).upstream.closeFrames = s.upstream.closeFrames) ∧
    (s.upstream.readyState = ReadyState.CONNECTING → s.graceTimers ≠ [] →
      (step s Event.graceFire).upstream.readyState = ReadyState.CLOSED ∧
      (step s Event.graceFire).upstream.closeFrames = s.upstream.closeFrames) := by
  have hne : s.upstream.readyState = ReadyState.CONNECTING →
      s.upstream.readyState ≠ ReadyState.OPEN := by
    intro hc
    simp [hc]
  refine ⟨fun h => safeClose_of_not_open ws code reason h, ?_, ?_, ?_⟩
  · intro hc e he
    exact (step_upstream_unopened s e he (hne hc)).2
  · intro hc he
    exact (run_upstream_unopened s tr he (hne hc)).2
  · intro hc hg
    have h := graceFire_closes s hg
    exact ⟨h.2.1, h.2.2.2⟩

/-- C10 amended witness: after a client error with the upstream still
CONNECTING, further non-open events add no upstream close frame, and the
grace expiry terminates the upstream leg abruptly. -/
theorem connecting_leg_no_graceful_close_witness :
    safeClose (initLeg ReadyState.CONNECTING) 1000 "x" =
      initLeg ReadyState.CONNECTING ∧
    (run (run initPair [Event.clientErrorEvent])
        [Event.upstreamErrorEvent, Event.keepaliveTick false false]).upstream.closeFrames =
      (run initPair [Event.clientErrorEvent]).upstream.closeFrames ∧
    (step (run initPair [Event.clientErrorEvent]) Event.graceFire).upstream.readyState =
      ReadyState.CLOSED := by
  have h := connecting_leg_no_graceful_close (run initPair [Event.clientErrorEvent])
    (initLeg ReadyState.CONNECTING) 1000 "x"
    [Event.upstreamErrorEvent, Event.keepaliveTick false false]
  exact ⟨h.1 (by decide), h.2.2.1 (by decide) (by decide),
    (h.2.2.2 (by decide) (by decide)).1⟩

end RealtimeProxy
